import Mathlib

/-!
Shallow embedding of the movie-watchlist web application
(src/ProjectSourceCode/index.js together with the schema in
src/ProjectSourceCode/init_data/create.sql).

The relational store is modelled as explicit lists of rows, one list per
table, with the SERIAL counters carried alongside.  Route handlers become
pure functions from a database state (plus the request body and the
session) to a new state and a response value.  The bcrypt hasher and the
external OMDB catalog are collaborators outside the repository, so they
enter as function/value parameters of the handlers that use them.
-/

namespace MovieApp

/-- Row of the users table: user_id SERIAL, username UNIQUE NOT NULL, password NOT NULL. -/
structure UserRow where
  user_id : Nat
  username : String
  password : String
deriving Repr, DecidableEq

/-- Row of the movies table: movie_id SERIAL, title UNIQUE NOT NULL, release_year INT (nullable). -/
structure MovieRow where
  movie_id : Nat
  title : String
  release_year : Option Int
deriving Repr, DecidableEq

/-- Row of the reviews table: rating INT CHECK (rating BETWEEN 1 AND 10), both nullable columns kept as Option. -/
structure ReviewRow where
  review_id : Nat
  user_id : Nat
  movie_id : Nat
  rating : Option Int
  review_text : Option String
deriving Repr, DecidableEq

/-- Row of the user_list table: list_id SERIAL, UNIQUE (user_id, movie_id). -/
structure UserListRow where
  list_id : Nat
  user_id : Nat
  movie_id : Nat
deriving Repr, DecidableEq

/-- The whole relational store, with the next value of each SERIAL sequence. -/
structure DBState where
  users : List UserRow
  movies : List MovieRow
  reviews : List ReviewRow
  user_list : List UserListRow
  nextUserId : Nat
  nextMovieId : Nat
  nextReviewId : Nat
  nextListId : Nat
deriving Repr, DecidableEq

/-- Errors raised by the store that the handlers catch: unique_violation is
SQLSTATE 23505 (the code tests err.code === "23505"), check_violation is the
CHECK constraint on reviews.rating. -/
inductive DBError where
  | uniqueViolation
  | checkViolation
deriving Repr, DecidableEq

/-- SQL semantics of CHECK (rating BETWEEN 1 AND 10): a NULL rating makes the
predicate UNKNOWN, which the constraint does not reject. -/
def ratingCheck : Option Int → Bool
  | none => true
  | some r => decide (1 ≤ r) && decide (r ≤ 10)

/-- INSERT INTO users (username, password) VALUES ($1, $2), enforcing the
UNIQUE constraint on username. -/
def insertUser (db : DBState) (username pwHash : String) : Except DBError DBState :=
  if db.users.any (fun u => u.username == username) then
    .error .uniqueViolation
  else
    .ok { db with
      users := db.users ++ [⟨db.nextUserId, username, pwHash⟩],
      nextUserId := db.nextUserId + 1 }

/-- Request body fields username/password; a missing field and the empty
string are both falsy for the code's !req.body.username test, so the empty
string stands for both. -/
structure Credentials where
  username : String
  password : String
deriving Repr, DecidableEq

-- *****************************************************
-- Authentication gate (index.js lines 237-242, installed by app.use(auth) at 353)
-- *****************************************************

/-- Outcome of the auth middleware: res.redirect("/login") or next(). -/
inductive AuthStep where
  | redirect (location : String)
  | next
deriving Repr, DecidableEq

/-- The auth middleware itself: if (!req.session.user) return res.redirect("/login"); next(). -/
def auth (sessionUser : Option UserRow) : AuthStep :=
  match sessionUser with
  | none => .redirect "/login"
  | some _ => .next

/-- Result of dispatching a request through the gate to a protected route. -/
inductive GateResult (ρ : Type) where
  | redirect (location : String)
  | handled (r : ρ)

/-- app.use(auth) followed by a route registered after it: the handler body
runs, and may touch the store, only when the middleware called next(). -/
def runProtected {ρ : Type} (sessionUser : Option UserRow)
    (handler : UserRow → DBState → DBState × ρ) (db : DBState) :
    DBState × GateResult ρ :=
  match auth sessionUser, sessionUser with
  | .redirect loc, _ => (db, .redirect loc)
  | .next, some u => ((handler u db).1, .handled (handler u db).2)
  | .next, none => (db, .redirect "/login")

-- *****************************************************
-- Registration (index.js lines 258-292)
-- *****************************************************

/-- Response of app.post("/register"); the Nat is the HTTP status a JSON
client receives. -/
inductive RegisterOutcome where
  | validationError (status : Nat) (message : String)
  | conflict (status : Nat) (message : String)
  | failure (status : Nat) (message : String)
  | success (message : String)
deriving Repr, DecidableEq

/-- app.post("/register"): validate, hash, insert; err.code === "23505" is
translated to the username-taken message with status 400, every other store
error to the generic message with status 500. -/
def registerHandler (hash : String → String) (db : DBState) (body : Credentials) :
    DBState × RegisterOutcome :=
  if body.username = "" || body.password = "" then
    (db, .validationError 400 "Username and password are required.")
  else
    match insertUser db body.username (hash body.password) with
    | .ok db2 => (db2, .success "User registered successfully")
    | .error .uniqueViolation =>
        (db, .conflict 400 "Username already exists. Please choose another.")
    | .error .checkViolation =>
        (db, .failure 500 "Registration failed. Please try again later.")

-- *****************************************************
-- Login (index.js lines 299-348)
-- *****************************************************

/-- Response of app.post("/login"); the success case carries the message and
username fields of the JSON body. -/
inductive LoginOutcome where
  | validationError (status : Nat) (message : String)
  | authFailure (status : Nat) (message : String)
  | success (message : String) (username : String)
deriving Repr, DecidableEq

/-- app.post("/login"): validate, SELECT * FROM users WHERE username = $1 via
oneOrNone, then bcrypt.compare; on success req.session.user is set to the
entire row that came back from the store.  The second component is
req.session.user after the request. -/
def loginHandler (compare : String → String → Bool) (db : DBState)
    (sessionUser : Option UserRow) (body : Credentials) :
    LoginOutcome × Option UserRow :=
  if body.username = "" || body.password = "" then
    (.validationError 400 "Username and password are required.", sessionUser)
  else
    match db.users.find? (fun u => u.username == body.username) with
    | none => (.authFailure 401 "User not found. Please register first.", sessionUser)
    | some user =>
      if compare body.password user.password then
        (.success "Login successful" user.username, some user)
      else
        (.authFailure 401 "Incorrect username or password.", sessionUser)

-- *****************************************************
-- Watchlist mutation (index.js lines 487-513)
-- *****************************************************

/-- The row updater of ON CONFLICT (title) DO UPDATE SET release_year = EXCLUDED.release_year. -/
def updYear (t : String) (y : Option Int) (m : MovieRow) : MovieRow :=
  if m.title == t then { m with release_year := y } else m

/-- INSERT INTO movies (title, release_year) VALUES ($1, $2) ON CONFLICT
(title) DO UPDATE SET release_year = EXCLUDED.release_year RETURNING
movie_id: update the conflicting row's year when the title exists, insert a
fresh row otherwise; either way hand back the row's movie_id. -/
def upsertMovie (db : DBState) (title : String) (year : Option Int) : DBState × Nat :=
  match db.movies.find? (fun m => m.title == title) with
  | some m =>
      ({ db with movies := db.movies.map (updYear title year) }, m.movie_id)
  | none =>
      ({ db with movies := db.movies ++ [⟨db.nextMovieId, title, year⟩],
                 nextMovieId := db.nextMovieId + 1 }, db.nextMovieId)

/-- INSERT INTO user_list (user_id, movie_id) VALUES ($1, $2) ON CONFLICT
(user_id, movie_id) DO NOTHING. -/
def insertUserList (db : DBState) (uid mid : Nat) : DBState :=
  if db.user_list.any (fun r => r.user_id == uid && r.movie_id == mid) then db
  else { db with user_list := db.user_list ++ [⟨db.nextListId, uid, mid⟩],
                 nextListId := db.nextListId + 1 }

/-- app.post("/movies/add") for an authenticated user: upsert the movie by
title, then add the (user, movie) watchlist pair, ignoring a duplicate; the
route always redirects to /discover afterwards. -/
def moviesAddHandler (db : DBState) (uid : Nat) (title : String) (year : Option Int) : DBState :=
  let step := upsertMovie db title year
  insertUserList step.1 uid step.2

-- *****************************************************
-- Review submission and retrieval (index.js lines 523-589)
-- *****************************************************

/-- INSERT INTO reviews (user_id, movie_id, rating, review_text), subject to
the CHECK constraint on rating. -/
def insertReview (db : DBState) (uid mid : Nat) (rating : Option Int)
    (text : Option String) : Except DBError DBState :=
  if ratingCheck rating then
    .ok { db with reviews := db.reviews ++ [⟨db.nextReviewId, uid, mid, rating, text⟩],
                  nextReviewId := db.nextReviewId + 1 }
  else .error .checkViolation

/-- First half of app.post("/reviews/add"): find the movie by title or
insert it bare (INSERT INTO movies (title) VALUES ($1), year NULL).  There is
no transaction around the route, so when the later review insert is rejected
by the CHECK constraint the movie row created here stays, the error is logged
and the route still redirects. -/
def findOrCreateMovie (db : DBState) (title : String) : DBState × Nat :=
  match db.movies.find? (fun m => m.title == title) with
  | some m => (db, m.movie_id)
  | none => ({ db with movies := db.movies ++ [⟨db.nextMovieId, title, none⟩],
                       nextMovieId := db.nextMovieId + 1 }, db.nextMovieId)

/-- The rest of app.post("/reviews/add"): insert the review against the found
or created movie, swallowing any store error. -/
def reviewsAddHandler (db : DBState) (uid : Nat) (title : String)
    (rating : Option Int) (text : Option String) : DBState :=
  match insertReview (findOrCreateMovie db title).1 uid (findOrCreateMovie db title).2
      rating text with
  | .ok db2 => db2
  | .error _ => (findOrCreateMovie db title).1

/-- One displayed review: SELECT r.rating, r.review_text, u.username. -/
structure ReviewDisplay where
  rating : Option Int
  review_text : Option String
  username : String
deriving Repr, DecidableEq

/-- SELECT r.rating, r.review_text, u.username FROM reviews r JOIN users u ON
r.user_id = u.user_id WHERE r.movie_id = $1 (inner join: a review row with no
matching user is dropped). -/
def reviewsJoin (db : DBState) (mid : Nat) : List ReviewDisplay :=
  (db.reviews.filter (fun r => r.movie_id == mid)).filterMap
    (fun r => (db.users.find? (fun u => u.user_id == r.user_id)).map
      (fun u => (⟨r.rating, r.review_text, u.username⟩ : ReviewDisplay)))

/-- Response of app.get("/reviews"). -/
inductive ReviewsPage where
  | redirect (location : String)
  | page (title : String) (reviews : List ReviewDisplay) (message : Option String)
deriving Repr, DecidableEq

/-- app.get("/reviews"): no title (falsy query value) redirects to /discover;
otherwise look the movie up by title, with an empty review list when it is
absent, and attach the no-reviews-yet message exactly when the list is empty. -/
def reviewsGetHandler (db : DBState) (title : String) : ReviewsPage :=
  if title = "" then .redirect "/discover"
  else
    let reviews :=
      match db.movies.find? (fun m => m.title == title) with
      | none => []
      | some m => reviewsJoin db m.movie_id
    .page title reviews
      (if reviews.length = 0 then some "No reviews yet — be the first to add one!" else none)

-- *****************************************************
-- Discovery (index.js lines 421-484; helpers at 138-228)
-- *****************************************************

/-- One item of the OMDB search payload the handler consumes. -/
structure OmdbSearchItem where
  Title : String
  Year : String
  Poster : String
  imdbID : String
deriving Repr, DecidableEq

/-- Display shape a catalog entry is mapped to: title, year,
poster-or-placeholder, external id, external detail link. -/
structure DisplayMovie where
  Title : String
  Year : String
  Poster : Option String
  imdbID : String
  url : String
deriving Repr, DecidableEq

/-- Enriched display shape of a fixed top-10 lookup (fetchTop10Movies). -/
structure Top10Movie where
  Title : String
  Year : String
  Poster : Option String
  imdbID : String
  imdbRating : String
  url : String
deriving Repr, DecidableEq

/-- OMDB search body: the Response === "False" flag and the Search array. -/
structure OmdbSearchResponse where
  responseFalse : Bool
  Search : List OmdbSearchItem
deriving Repr, DecidableEq

/-- Result of the one awaited axios call in the search branch: a payload, or
a thrown transport error. -/
inductive CatalogResult (α : Type) where
  | ok (data : α)
  | transportError

/-- The map over response.data.Search: Poster "N/A" becomes null and the url
is the IMDB detail link built from the external id. -/
def displayOf (m : OmdbSearchItem) : DisplayMovie :=
  ⟨m.Title, m.Year, if m.Poster == "N/A" then none else some m.Poster, m.imdbID,
   "https://www.imdb.com/title/" ++ m.imdbID⟩

/-- Data handed to res.render("discover", ...). -/
structure DiscoverView where
  results : List DisplayMovie
  popularMovies : List DisplayMovie
  top10Movies : List Top10Movie
  message : Option String
  isSearch : Bool
deriving Repr, DecidableEq

/-- HTTP outcome of a request: a rendered page, or an error status. -/
inductive HttpOutcome (π : Type) where
  | renderPage (p : π)
  | serverError (status : Nat)

/-- JS truthiness of process.env.API_KEY and req.query.title: an absent value
and the empty string are both falsy. -/
def strTruthy : Option String → Bool
  | none => false
  | some s => !(s == "")

/-- app.get("/discover"): no API key short-circuits to an empty page with the
not-configured message; with a search query, one catalog call whose thrown
transport error is caught and turned into the try-again-later page; without a
query the curated lists (whose fetchers swallow their own errors and so are
plain inputs here) are rendered. -/
def discoverHandler (apiKey : Option String) (searchQuery : Option String)
    (searchResult : CatalogResult OmdbSearchResponse)
    (popular : List DisplayMovie) (top10 : List Top10Movie) :
    HttpOutcome DiscoverView :=
  if !(strTruthy apiKey) then
    .renderPage ⟨[], [], [], some "OMDB API key not configured.", false⟩
  else if strTruthy searchQuery then
    match searchResult with
    | .transportError =>
        .renderPage ⟨[], [], [], some "Error loading movies. Try again later.", false⟩
    | .ok resp =>
      if resp.responseFalse then
        .renderPage ⟨[], [], [], some "No movies found for your search.", true⟩
      else
        .renderPage ⟨resp.Search.map displayOf, [], [], none, true⟩
  else
    .renderPage ⟨[], popular, top10, none, false⟩

-- *****************************************************
-- Profile top-movies aggregation (index.js lines 392-403)
-- *****************************************************

/-- One row of the profile's top-movies query: SELECT m.title,
m.release_year, AVG(r.rating) AS avg_rating, COUNT(*) AS review_count. -/
structure TopMovieRow where
  title : String
  release_year : Option Int
  avg_rating : Option ℚ
  review_count : Nat
deriving DecidableEq

/-- FROM reviews r JOIN movies m ON r.movie_id = m.movie_id WHERE r.user_id = $1. -/
def userReviewRows (db : DBState) (uid : Nat) : List (MovieRow × ReviewRow) :=
  (db.reviews.filter (fun r => r.user_id == uid)).filterMap
    (fun r => (db.movies.find? (fun m => m.movie_id == r.movie_id)).map (fun m => (m, r)))

/-- The distinct GROUP BY keys, in first-appearance order. -/
def distinctMovies : List MovieRow → List MovieRow
  | [] => []
  | m :: rest => m :: distinctMovies (rest.filter (fun m2 => !(m2.movie_id == m.movie_id)))
termination_by l => l.length
decreasing_by
  simp only [List.length_cons]
  exact Nat.lt_succ_of_le (List.length_filter_le _ _)

/-- SQL AVG over an INT column: NULL values are skipped, and an empty bag of
non-NULL values gives NULL. -/
def sqlAvg (vals : List Int) : Option ℚ :=
  if vals.length = 0 then none
  else some ((vals.sum : ℚ) / (vals.length : ℚ))

/-- One aggregated group of the query, for the movie m. -/
def topMovieRowOf (rows : List (MovieRow × ReviewRow)) (m : MovieRow) : TopMovieRow :=
  let grp := rows.filter (fun p => p.1.movie_id == m.movie_id)
  ⟨m.title, m.release_year, sqlAvg (grp.filterMap (fun p => p.2.rating)), grp.length⟩

/-- ORDER BY AVG(r.rating) DESC on two average values; Postgres places NULL
first under DESC. -/
def avgDescBefore : Option ℚ → Option ℚ → Prop
  | none, some _ => True
  | some a, some b => b < a
  | _, _ => False

instance : DecidableRel avgDescBefore
  | none, none => isFalse id
  | none, some _ => isTrue trivial
  | some _, none => isFalse id
  | some a, some b => inferInstanceAs (Decidable (b < a))

/-- The full comparison of ORDER BY AVG(r.rating) DESC, COUNT(*) DESC,
m.title ASC: a comes no later than b. -/
def topOrder (a b : TopMovieRow) : Prop :=
  avgDescBefore a.avg_rating b.avg_rating ∨
    (a.avg_rating = b.avg_rating ∧
      (b.review_count < a.review_count ∨
        (a.review_count = b.review_count ∧ a.title ≤ b.title)))

instance : DecidableRel topOrder := fun a b => by
  unfold topOrder; infer_instance

/-- The profile's third query: group the user's review join by movie,
aggregate, ORDER BY AVG DESC, COUNT(*) DESC, title ASC, LIMIT 10. -/
def topMoviesQuery (db : DBState) (uid : Nat) : List TopMovieRow :=
  let rows := userReviewRows db uid
  (((distinctMovies (rows.map Prod.fst)).map (topMovieRowOf rows)).insertionSort topOrder).take 10

-- *****************************************************
-- Store invariants used as hypotheses
-- *****************************************************

/-- Well-formedness a real store run guarantees: SERIAL ids of movies are
below the sequence's next value, the UNIQUE constraints on movies.title and
on (user_id, movie_id) of user_list hold, the user_list FOREIGN KEY into
movies holds, and users have distinct ids. -/
structure DBWF (db : DBState) : Prop where
  moviesFresh : ∀ m ∈ db.movies, m.movie_id < db.nextMovieId
  movieTitlesUnique : db.movies.Pairwise (fun a b => a.title ≠ b.title)
  listFK : ∀ r ∈ db.user_list, ∃ m ∈ db.movies, m.movie_id = r.movie_id
  listPairsUnique : db.user_list.Pairwise
    (fun a b => a.user_id ≠ b.user_id ∨ a.movie_id ≠ b.movie_id)
  userIdsUnique : db.users.Pairwise (fun a b => a.user_id ≠ b.user_id)

/-- Concrete store holding the single user alice, for counterexample runs. -/
def dbAlice : DBState := ⟨[⟨1, "alice", "bcryptHashOfAlice"⟩], [], [], [], 2, 1, 1, 1⟩

/-- Concrete store with one user and one movie, for witness runs. -/
def dbDune : DBState :=
  ⟨[⟨1, "alice", "bcryptHashOfAlice"⟩], [⟨1, "Dune", some 2020⟩], [], [], 2, 2, 1, 1⟩

end MovieApp

namespace MovieApp

/-- C1: a request to a route registered after the gate is redirected to
/login, with the store untouched and the handler never run, when the session
holds no user; when the session holds a user the handler runs unchanged on
the store. -/
theorem auth_gate_protects {ρ : Type} (handler : UserRow → DBState → DBState × ρ)
    (db : DBState) :
    auth none = .redirect "/login" ∧
    runProtected none handler db = (db, .redirect "/login") ∧
    ∀ u : UserRow, auth (some u) = .next ∧
      runProtected (some u) handler db = ((handler u db).1, .handled (handler u db).2) :=
  ⟨rfl, rfl, fun _ => ⟨rfl, rfl⟩⟩

/-- C2: the code answers a login for an unknown username with the message
"User not found. Please register first." but a login for a known username
with a wrong password with "Incorrect username or password.", so two failed
attempts differing only in whether the account exists produce different
responses, revealing account existence. -/
theorem login_reveals_account_existence :
    (loginHandler (fun _ _ => false) dbAlice none ⟨"ghost", "pw"⟩).1 =
      .authFailure 401 "User not found. Please register first." ∧
    (loginHandler (fun _ _ => false) dbAlice none ⟨"alice", "pw"⟩).1 =
      .authFailure 401 "Incorrect username or password." ∧
    (loginHandler (fun _ _ => false) dbAlice none ⟨"ghost", "pw"⟩).1 ≠
      (loginHandler (fun _ _ => false) dbAlice none ⟨"alice", "pw"⟩).1 :=
  ⟨rfl, rfl, by decide⟩

/-- C3: registering a fresh username succeeds and leaves exactly one row with
that username; a second registration of the same username (any password) is
answered with the specific username-taken message and status 400, and the
store is left unchanged, so no second row is created. -/
theorem register_second_attempt_conflicts (hash : String → String) (db : DBState)
    (u p1 p2 : String) (hu : u ≠ "") (hp1 : p1 ≠ "") (hp2 : p2 ≠ "")
    (hfresh : ∀ r ∈ db.users, r.username ≠ u) :
    (registerHandler hash db ⟨u, p1⟩).2 = .success "User registered successfully" ∧
    ((registerHandler hash db ⟨u, p1⟩).1.users.filter (fun r => r.username == u)).length = 1 ∧
    registerHandler hash (registerHandler hash db ⟨u, p1⟩).1 ⟨u, p2⟩ =
      ((registerHandler hash db ⟨u, p1⟩).1,
       .conflict 400 "Username already exists. Please choose another.") := by
  have hany : db.users.any (fun r => r.username == u) = false := by
    simp only [List.any_eq_false]
    intro r hr
    simpa using hfresh r hr
  have hfirst : registerHandler hash db ⟨u, p1⟩ =
      ({ db with users := db.users ++ [⟨db.nextUserId, u, hash p1⟩],
                 nextUserId := db.nextUserId + 1 },
       .success "User registered successfully") := by
    simp [registerHandler, insertUser, hu, hp1, hany]
  refine ⟨by rw [hfirst], ?_, ?_⟩
  · rw [hfirst]
    simp only [List.filter_append]
    have hnil : db.users.filter (fun r => r.username == u) = [] := by
      simp only [List.filter_eq_nil_iff]
      intro r hr
      simpa using hfresh r hr
    simp [hnil]
  · rw [hfirst]
    have hany2 : (db.users ++ [(⟨db.nextUserId, u, hash p1⟩ : UserRow)]).any
        (fun r => r.username == u) = true := by
      simp
    simp [registerHandler, insertUser, hu, hp2, hany2]

/-- Closed witness for the register-conflict theorem at a concrete store. -/
theorem register_second_attempt_conflicts_witness :
    (registerHandler (fun p => p ++ "#h") dbAlice ⟨"bob", "pw1"⟩).2 =
      .success "User registered successfully" ∧
    (((registerHandler (fun p => p ++ "#h") dbAlice ⟨"bob", "pw1"⟩).1.users.filter
        (fun r => r.username == "bob")).length = 1) ∧
    registerHandler (fun p => p ++ "#h")
        (registerHandler (fun p => p ++ "#h") dbAlice ⟨"bob", "pw1"⟩).1 ⟨"bob", "pw2"⟩ =
      ((registerHandler (fun p => p ++ "#h") dbAlice ⟨"bob", "pw1"⟩).1,
       .conflict 400 "Username already exists. Please choose another.") :=
  register_second_attempt_conflicts (fun p => p ++ "#h") dbAlice "bob" "pw1" "pw2"
    (by decide) (by decide) (by decide) (by decide)

/-- C10: whenever a login succeeds, the value stored in the session is the
entire user row exactly as it came back from SELECT * — its password field,
the bcrypt hash, included — not a projection to identifier and username. -/
theorem login_session_stores_entire_row (compare : String → String → Bool)
    (db : DBState) (sessionUser : Option UserRow) (body : Credentials)
    (h : ∃ m un, (loginHandler compare db sessionUser body).1 = .success m un) :
    ∃ row ∈ db.users, row.username = body.username ∧
      compare body.password row.password = true ∧
      (loginHandler compare db sessionUser body).2 = some row := by
  obtain ⟨m, un, hsucc⟩ := h
  by_cases hval : (body.username = "" || body.password = "") = true
  · simp [loginHandler, hval] at hsucc
  · rcases hfind : db.users.find? (fun r => r.username == body.username) with _ | row
    · simp [loginHandler, hval, hfind] at hsucc
    · by_cases hcmp : compare body.password row.password = true
      · refine ⟨row, List.mem_of_find?_eq_some hfind, ?_, hcmp, ?_⟩
        · have := List.find?_some hfind
          simpa using this
        · simp [loginHandler, hval, hfind, hcmp]
      · simp [loginHandler, hval, hfind, hcmp] at hsucc

/-- Two members of a list with pairwise-distinct keys and the same key are
the same element. -/
theorem eq_of_key_unique {α β : Type} (key : α → β) {l : List α}
    (huniq : l.Pairwise (fun a b => key a ≠ key b))
    {x y : α} (hx : x ∈ l) (hy : y ∈ l) (hk : key x = key y) : x = y := by
  induction l with
  | nil => cases hx
  | cons a l ih =>
    have h1 := (List.pairwise_cons.mp huniq).1
    have h2 := (List.pairwise_cons.mp huniq).2
    rcases List.mem_cons.mp hx with rfl | hx2
    · rcases List.mem_cons.mp hy with rfl | hy2
      · rfl
      · exact absurd hk (h1 y hy2)
    · rcases List.mem_cons.mp hy with rfl | hy2
      · exact absurd hk.symm (h1 x hx2)
      · exact ih h2 hx2 hy2

/-- On a list with pairwise-distinct keys, searching for the key of a member
finds exactly that member. -/
theorem find?_key_unique {α β : Type} [BEq β] [LawfulBEq β] (key : α → β) {l : List α}
    (huniq : l.Pairwise (fun a b => key a ≠ key b))
    {m : α} (hm : m ∈ l) {t : β} (ht : key m = t) :
    l.find? (fun x => key x == t) = some m := by
  induction l with
  | nil => cases hm
  | cons a l ih =>
    rcases List.mem_cons.mp hm with rfl | hm2
    · exact List.find?_cons_of_pos _ (by simpa using ht)
    · have hne : key a ≠ t := by
        intro h
        exact (List.pairwise_cons.mp huniq).1 m hm2 (h.trans ht.symm)
      rw [List.find?_cons_of_neg _ (by simpa using hne)]
      exact ih (List.pairwise_cons.mp huniq).2 hm2

/-- The ON CONFLICT updater changes neither the movie_id nor the title. -/
theorem updYear_movie_id (t : String) (y : Option Int) (m : MovieRow) :
    (updYear t y m).movie_id = m.movie_id := by
  by_cases h : m.title = t <;> simp [updYear, h]

/-- The ON CONFLICT updater keeps the title of every row. -/
theorem updYear_title (t : String) (y : Option Int) (m : MovieRow) :
    (updYear t y m).title = m.title := by
  by_cases h : m.title = t <;> simp [updYear, h]

/-- Searching by title commutes with the year update of the upsert. -/
theorem find?_title_map_upd (l : List MovieRow) (t : String) (y : Option Int) :
    (l.map (updYear t y)).find? (fun x => x.title == t) =
      (l.find? (fun x => x.title == t)).map (updYear t y) := by
  have hcomp : ((fun x : MovieRow => x.title == t) ∘ updYear t y) =
      (fun x : MovieRow => x.title == t) := by
    funext x
    simp [Function.comp, updYear_title]
  rw [List.find?_map, hcomp]

/-- C6: when a movie with the given title already exists, the watchlist-add
upsert reuses its movie_id, creates no extra row, and the unique movie with
that title afterwards is the old row with its release_year replaced by the
new value. -/
theorem movie_upsert_reuses_id (db : DBState) (t : String) (y : Option Int)
    (m : MovieRow) (hm : m ∈ db.movies) (ht : m.title = t)
    (huniq : db.movies.Pairwise (fun a b => a.title ≠ b.title)) :
    (upsertMovie db t y).2 = m.movie_id ∧
    (upsertMovie db t y).1.movies.length = db.movies.length ∧
    ({ m with release_year := y } : MovieRow) ∈ (upsertMovie db t y).1.movies ∧
    ∀ m2 ∈ (upsertMovie db t y).1.movies, m2.title = t →
      m2 = { m with release_year := y } := by
  have hfind : db.movies.find? (fun x => x.title == t) = some m :=
    find?_key_unique (fun x => x.title) huniq hm ht
  have h1 : upsertMovie db t y =
      ({ db with movies := db.movies.map (updYear t y) }, m.movie_id) := by
    unfold upsertMovie
    rw [hfind]
  rw [h1]
  refine ⟨rfl, by simp, ?_, ?_⟩
  · have hupd : updYear t y m = { m with release_year := y } := by
      simp [updYear, ht]
    simpa [hupd] using List.mem_map_of_mem (updYear t y) hm
  · intro m2 hm2 ht2
    simp only [List.mem_map] at hm2
    obtain ⟨x, hx, rfl⟩ := hm2
    have hxt : x.title = t := by
      rw [← updYear_title t y x]
      exact ht2
    have hxm : x = m := eq_of_key_unique (fun z => z.title) huniq hx hm (hxt.trans ht.symm)
    subst hxm
    simp [updYear, hxt]

/-- Closed witness: upserting Dune with a new year on a concrete store reuses
movie_id 1 and rewrites the stored year. -/
theorem movie_upsert_reuses_id_witness :
    (upsertMovie dbDune "Dune" (some 2021)).2 = 1 ∧
    (upsertMovie dbDune "Dune" (some 2021)).1.movies.length = dbDune.movies.length ∧
    (⟨1, "Dune", some 2021⟩ : MovieRow) ∈ (upsertMovie dbDune "Dune" (some 2021)).1.movies ∧
    ∀ m2 ∈ (upsertMovie dbDune "Dune" (some 2021)).1.movies, m2.title = "Dune" →
      m2 = ⟨1, "Dune", some 2021⟩ :=
  movie_upsert_reuses_id dbDune "Dune" (some 2021) ⟨1, "Dune", some 2020⟩
    (by decide) rfl (by decide)

/-- With the UNIQUE (user_id, movie_id) constraint, a pair that occurs in the
watchlist occurs in exactly one row. -/
theorem filter_pair_length_one {l : List UserListRow} {uid mid : Nat}
    (huniq : l.Pairwise (fun a b => a.user_id ≠ b.user_id ∨ a.movie_id ≠ b.movie_id))
    (hmem : ∃ r ∈ l, r.user_id = uid ∧ r.movie_id = mid) :
    (l.filter (fun r => r.user_id == uid && r.movie_id == mid)).length = 1 := by
  induction l with
  | nil => simp at hmem
  | cons a l ih =>
    have hp := List.pairwise_cons.mp huniq
    by_cases ha : a.user_id = uid ∧ a.movie_id = mid
    · have hpred : (a.user_id == uid && a.movie_id == mid) = true := by
        simp [ha.1, ha.2]
      rw [List.filter_cons, hpred]
      have hnil : l.filter (fun r => r.user_id == uid && r.movie_id == mid) = [] := by
        simp only [List.filter_eq_nil_iff]
        intro r hr hcontra
        simp only [Bool.and_eq_true, beq_iff_eq] at hcontra
        rcases hp.1 r hr with h | h
        · exact h (ha.1.trans hcontra.1.symm)
        · exact h (ha.2.trans hcontra.2.symm)
      simp [hnil]
    · have hpred : (a.user_id == uid && a.movie_id == mid) = false := by
        simpa using ha
      rw [List.filter_cons, hpred]
      simp only [Bool.false_eq_true, if_false]
      apply ih hp.2
      obtain ⟨r, hr, hru, hrm⟩ := hmem
      rcases List.mem_cons.mp hr with rfl | hr2
      · exact absurd ⟨hru, hrm⟩ ha
      · exact ⟨r, hr2, hru, hrm⟩

/-- Branch equation of the upsert when the title is already present. -/
theorem upsertMovie_of_find?_some {db : DBState} {t : String} {m : MovieRow}
    (h : db.movies.find? (fun x => x.title == t) = some m) (y : Option Int) :
    upsertMovie db t y = ({ db with movies := db.movies.map (updYear t y) }, m.movie_id) := by
  unfold upsertMovie
  rw [h]

/-- Branch equation of the upsert when the title is absent. -/
theorem upsertMovie_of_find?_none {db : DBState} {t : String}
    (h : db.movies.find? (fun x => x.title == t) = none) (y : Option Int) :
    upsertMovie db t y =
      ({ db with movies := db.movies ++ [⟨db.nextMovieId, t, y⟩],
                 nextMovieId := db.nextMovieId + 1 }, db.nextMovieId) := by
  unfold upsertMovie
  rw [h]

/-- Branch equation of the watchlist insert when the pair is absent. -/
theorem insertUserList_of_absent {db : DBState} {uid mid : Nat}
    (h : db.user_list.any (fun r => r.user_id == uid && r.movie_id == mid) = false) :
    insertUserList db uid mid =
      { db with user_list := db.user_list ++ [⟨db.nextListId, uid, mid⟩],
                nextListId := db.nextListId + 1 } := by
  unfold insertUserList
  rw [h]
  simp

/-- Branch equation of the watchlist insert when the pair is present: ON
CONFLICT DO NOTHING makes it a no-op. -/
theorem insertUserList_of_present {db : DBState} {uid mid : Nat}
    (h : db.user_list.any (fun r => r.user_id == uid && r.movie_id == mid) = true) :
    insertUserList db uid mid = db := by
  unfold insertUserList
  rw [h]
  simp

/-- The watchlist-add route is the upsert followed by the pair insert. -/
theorem moviesAddHandler_eq (db : DBState) (uid : Nat) (t : String) (y : Option Int) :
    moviesAddHandler db uid t y =
      insertUserList (upsertMovie db t y).1 uid (upsertMovie db t y).2 := rfl

/-- C4: on a well-formed store, adding the same (user, title) pair to the
watchlist twice (the years may differ) leaves the watchlist exactly as after
the first add, and the movie row the title resolves to is watched by the user
in exactly one row; no duplicate-row error exists, since the insert ignores
the conflicting pair. -/
theorem watchlist_add_idempotent (db : DBState) (uid : Nat) (t : String)
    (y1 y2 : Option Int) (hwf : DBWF db) :
    (moviesAddHandler (moviesAddHandler db uid t y1) uid t y2).user_list =
      (moviesAddHandler db uid t y1).user_list ∧
    ∃ m2, (moviesAddHandler (moviesAddHandler db uid t y1) uid t y2).movies.find?
        (fun x => x.title == t) = some m2 ∧
      ((moviesAddHandler (moviesAddHandler db uid t y1) uid t y2).user_list.filter
        (fun r => r.user_id == uid && r.movie_id == m2.movie_id)).length = 1 := by
  rcases hfind : db.movies.find? (fun x => x.title == t) with _ | m
  · -- no movie with this title yet: the first add creates the movie and the pair
    have hfreshpair : ∀ r ∈ db.user_list,
        ¬((r.user_id == uid && r.movie_id == db.nextMovieId) = true) := by
      intro r hr hcon
      obtain ⟨mm, hmm, hid⟩ := hwf.listFK r hr
      have hlt := hwf.moviesFresh mm hmm
      simp only [Bool.and_eq_true, beq_iff_eq] at hcon
      omega
    have hany1 : (db.user_list.any
        (fun r => r.user_id == uid && r.movie_id == db.nextMovieId)) = false := by
      simp only [List.any_eq_false]
      intro r hr
      exact hfreshpair r hr
    have hdb1 : moviesAddHandler db uid t y1 =
        { db with movies := db.movies ++ [⟨db.nextMovieId, t, y1⟩],
                  nextMovieId := db.nextMovieId + 1,
                  user_list := db.user_list ++ [⟨db.nextListId, uid, db.nextMovieId⟩],
                  nextListId := db.nextListId + 1 } := by
      rw [moviesAddHandler_eq, upsertMovie_of_find?_none hfind y1]
      exact insertUserList_of_absent hany1
    have hfind1 : ((db.movies ++ [⟨db.nextMovieId, t, y1⟩] : List MovieRow).find?
        (fun x => x.title == t)) = some ⟨db.nextMovieId, t, y1⟩ := by
      rw [List.find?_append, hfind]
      simp
    have hany2 : ((db.user_list ++ [⟨db.nextListId, uid, db.nextMovieId⟩] : List UserListRow).any
        (fun r => r.user_id == uid && r.movie_id == db.nextMovieId)) = true := by
      simp
    have hdb2 : moviesAddHandler (moviesAddHandler db uid t y1) uid t y2 =
        { db with movies := (db.movies ++ ([⟨db.nextMovieId, t, y1⟩] : List MovieRow)).map (updYear t y2),
                  nextMovieId := db.nextMovieId + 1,
                  user_list := db.user_list ++ [⟨db.nextListId, uid, db.nextMovieId⟩],
                  nextListId := db.nextListId + 1 } := by
      rw [moviesAddHandler_eq (moviesAddHandler db uid t y1), hdb1,
        upsertMovie_of_find?_some hfind1 y2]
      exact insertUserList_of_present hany2
    refine ⟨by rw [hdb2, hdb1], (⟨db.nextMovieId, t, y2⟩ : MovieRow), ?_, ?_⟩
    · rw [hdb2]
      show ((db.movies ++ ([⟨db.nextMovieId, t, y1⟩] : List MovieRow)).map (updYear t y2)).find?
          (fun x => x.title == t) = some (⟨db.nextMovieId, t, y2⟩ : MovieRow)
      rw [find?_title_map_upd, hfind1]
      simp [updYear]
    · rw [hdb2]
      show ((db.user_list ++ ([⟨db.nextListId, uid, db.nextMovieId⟩] : List UserListRow)).filter
          (fun r => r.user_id == uid && r.movie_id == db.nextMovieId)).length = 1
      rw [List.filter_append]
      have hnil : db.user_list.filter
          (fun r => r.user_id == uid && r.movie_id == db.nextMovieId) = [] := by
        simp only [List.filter_eq_nil_iff]
        intro r hr
        exact hfreshpair r hr
      simp [hnil]
  · -- the movie already exists: the upsert reuses its row
    have hfind1 : ((db.movies.map (updYear t y1)).find? (fun x => x.title == t)) =
        some (updYear t y1 m) := by
      rw [find?_title_map_upd, hfind]
      rfl
    have hid1 : (updYear t y1 m).movie_id = m.movie_id := updYear_movie_id t y1 m
    rcases hpair : db.user_list.any
        (fun r => r.user_id == uid && r.movie_id == m.movie_id) with _ | _
    · -- pair not yet in the watchlist: the first add creates it
      have hdb1 : moviesAddHandler db uid t y1 =
          { db with movies := db.movies.map (updYear t y1),
                    user_list := db.user_list ++ [⟨db.nextListId, uid, m.movie_id⟩],
                    nextListId := db.nextListId + 1 } := by
        rw [moviesAddHandler_eq, upsertMovie_of_find?_some hfind y1]
        exact insertUserList_of_absent hpair
      have hany2 : ((db.user_list ++ [⟨db.nextListId, uid, m.movie_id⟩] : List UserListRow).any
          (fun r => r.user_id == uid && r.movie_id == m.movie_id)) = true := by
        simp
      have hdb2 : moviesAddHandler (moviesAddHandler db uid t y1) uid t y2 =
          { db with movies := (db.movies.map (updYear t y1)).map (updYear t y2),
                    user_list := db.user_list ++ [⟨db.nextListId, uid, m.movie_id⟩],
                    nextListId := db.nextListId + 1 } := by
        rw [moviesAddHandler_eq (moviesAddHandler db uid t y1), hdb1,
          upsertMovie_of_find?_some hfind1 y2, hid1]
        exact insertUserList_of_present hany2
      refine ⟨by rw [hdb2, hdb1], updYear t y2 (updYear t y1 m), ?_, ?_⟩
      · rw [hdb2]
        show (((db.movies.map (updYear t y1)).map (updYear t y2)).find?
            (fun x => x.title == t)) = some (updYear t y2 (updYear t y1 m))
        rw [find?_title_map_upd, hfind1]
        rfl
      · rw [hdb2]
        have hmid : (updYear t y2 (updYear t y1 m)).movie_id = m.movie_id := by
          rw [updYear_movie_id, updYear_movie_id]
        rw [hmid]
        show ((db.user_list ++ ([⟨db.nextListId, uid, m.movie_id⟩] : List UserListRow)).filter
            (fun r => r.user_id == uid && r.movie_id == m.movie_id)).length = 1
        rw [List.filter_append]
        have hnil : db.user_list.filter
            (fun r => r.user_id == uid && r.movie_id == m.movie_id) = [] := by
          simp only [List.filter_eq_nil_iff]
          intro r hr
          exact (List.any_eq_false.mp hpair) r hr
        simp [hnil]
    · -- pair already in the watchlist: both adds leave it alone
      have hdb1 : moviesAddHandler db uid t y1 =
          { db with movies := db.movies.map (updYear t y1) } := by
        rw [moviesAddHandler_eq, upsertMovie_of_find?_some hfind y1]
        exact insertUserList_of_present hpair
      have hdb2 : moviesAddHandler (moviesAddHandler db uid t y1) uid t y2 =
          { db with movies := (db.movies.map (updYear t y1)).map (updYear t y2) } := by
        rw [moviesAddHandler_eq (moviesAddHandler db uid t y1), hdb1,
          upsertMovie_of_find?_some hfind1 y2, hid1]
        exact insertUserList_of_present hpair
      refine ⟨by rw [hdb2, hdb1], updYear t y2 (updYear t y1 m), ?_, ?_⟩
      · rw [hdb2]
        show (((db.movies.map (updYear t y1)).map (updYear t y2)).find?
            (fun x => x.title == t)) = some (updYear t y2 (updYear t y1 m))
        rw [find?_title_map_upd, hfind1]
        rfl
      · rw [hdb2]
        have hmid : (updYear t y2 (updYear t y1 m)).movie_id = m.movie_id := by
          rw [updYear_movie_id, updYear_movie_id]
        rw [hmid]
        show (db.user_list.filter
            (fun r => r.user_id == uid && r.movie_id == m.movie_id)).length = 1
        apply filter_pair_length_one hwf.listPairsUnique
        obtain ⟨r, hr, hpr⟩ := List.any_eq_true.mp hpair
        refine ⟨r, hr, ?_⟩
        simpa using hpr

/-- Closed witness: adding Dune twice for user 1 on a concrete well-formed
store leaves one watchlist row. -/
theorem watchlist_add_idempotent_witness :
    (moviesAddHandler (moviesAddHandler dbDune 1 "Dune" (some 2020)) 1 "Dune" (some 2021)).user_list =
      (moviesAddHandler dbDune 1 "Dune" (some 2020)).user_list ∧
    ∃ m2, (moviesAddHandler (moviesAddHandler dbDune 1 "Dune" (some 2020)) 1 "Dune" (some 2021)).movies.find?
        (fun x => x.title == "Dune") = some m2 ∧
      ((moviesAddHandler (moviesAddHandler dbDune 1 "Dune" (some 2020)) 1 "Dune" (some 2021)).user_list.filter
        (fun r => r.user_id == 1 && r.movie_id == m2.movie_id)).length = 1 :=
  watchlist_add_idempotent dbDune 1 "Dune" (some 2020) (some 2021)
    ⟨by decide, by decide, by decide, by decide, by decide⟩

/-- Branch equation of the review insert when the CHECK constraint passes. -/
theorem insertReview_of_check_true {rating : Option Int} (h : ratingCheck rating = true)
    (db : DBState) (uid mid : Nat) (text : Option String) :
    insertReview db uid mid rating text =
      .ok { db with reviews := db.reviews ++ [⟨db.nextReviewId, uid, mid, rating, text⟩],
                    nextReviewId := db.nextReviewId + 1 } := by
  unfold insertReview
  rw [h]
  simp

/-- Branch equation of the review insert when the CHECK constraint rejects. -/
theorem insertReview_of_check_false {rating : Option Int} (h : ratingCheck rating = false)
    (db : DBState) (uid mid : Nat) (text : Option String) :
    insertReview db uid mid rating text = .error .checkViolation := by
  unfold insertReview
  rw [h]
  simp

/-- The find-or-create step never touches the reviews table. -/
theorem findOrCreateMovie_reviews (db : DBState) (title : String) :
    (findOrCreateMovie db title).1.reviews = db.reviews := by
  unfold findOrCreateMovie
  rcases h : db.movies.find? (fun m => m.title == title) with _ | m <;> rw [h]

/-- The find-or-create step never touches the review SERIAL either. -/
theorem findOrCreateMovie_nextReviewId (db : DBState) (title : String) :
    (findOrCreateMovie db title).1.nextReviewId = db.nextReviewId := by
  unfold findOrCreateMovie
  rcases h : db.movies.find? (fun m => m.title == title) with _ | m <;> rw [h]

/-- C5 counterexample: a review submitted with a NULL rating passes the CHECK
constraint (SQL treats the NULL comparison as UNKNOWN), so a review row whose
rating is not within 1..10 — it is NULL — is persisted. -/
theorem review_null_rating_persisted :
    (reviewsAddHandler dbAlice 1 "Tenet" none (some "good")).reviews =
      [⟨1, 1, 1, none, some "good"⟩] ∧
    ¬(∀ r ∈ (reviewsAddHandler dbAlice 1 "Tenet" none (some "good")).reviews,
        ∃ v : Int, r.rating = some v ∧ 1 ≤ v ∧ v ≤ 10) := by
  refine ⟨rfl, ?_⟩
  intro h
  have hmem : (⟨1, 1, 1, none, some "good"⟩ : ReviewRow) ∈
      (reviewsAddHandler dbAlice 1 "Tenet" none (some "good")).reviews := by
    rw [show (reviewsAddHandler dbAlice 1 "Tenet" none (some "good")).reviews =
      [⟨1, 1, 1, none, some "good"⟩] from rfl]
    exact List.mem_singleton.mpr rfl
  obtain ⟨v, hv, _⟩ := h _ hmem
  exact Option.noConfusion hv

/-- C5 amended: a review submission whose rating is a non-NULL value outside
the inclusive range 1..10 is rejected by the store's CHECK constraint and
creates no review row; and the handler preserves the invariant that every
persisted non-NULL rating lies within 1..10.  (A NULL rating, by SQL CHECK
semantics, is accepted and persisted.) -/
theorem review_rating_range_amended (db : DBState) (uid : Nat) (title : String)
    (v : Int) (text : Option String) (hv : ¬(1 ≤ v ∧ v ≤ 10)) :
    (reviewsAddHandler db uid title (some v) text).reviews = db.reviews ∧
    ∀ (rating : Option Int) (text2 : Option String),
      (∀ r ∈ db.reviews, ∀ w : Int, r.rating = some w → 1 ≤ w ∧ w ≤ 10) →
      ∀ r ∈ (reviewsAddHandler db uid title rating text2).reviews,
        ∀ w : Int, r.rating = some w → 1 ≤ w ∧ w ≤ 10 := by
  have hc : ratingCheck (some v) = false := by
    simp only [ratingCheck, Bool.and_eq_false_imp, decide_eq_true_eq, decide_eq_false_iff_not]
    intro h1 h2
    exact hv ⟨h1, h2⟩
  constructor
  · unfold reviewsAddHandler
    rw [insertReview_of_check_false hc]
    exact findOrCreateMovie_reviews db title
  · intro rating text2 hinv r hr w hw
    rcases hc2 : ratingCheck rating with _ | _
    · rw [show reviewsAddHandler db uid title rating text2 =
          (findOrCreateMovie db title).1 from by
        unfold reviewsAddHandler
        rw [insertReview_of_check_false hc2]] at hr
      rw [findOrCreateMovie_reviews db title] at hr
      exact hinv r hr w hw
    · rw [show reviewsAddHandler db uid title rating text2 =
          { (findOrCreateMovie db title).1 with
            reviews := (findOrCreateMovie db title).1.reviews ++
              [⟨(findOrCreateMovie db title).1.nextReviewId, uid,
                (findOrCreateMovie db title).2, rating, text2⟩],
            nextReviewId := (findOrCreateMovie db title).1.nextReviewId + 1 } from by
        unfold reviewsAddHandler
        rw [insertReview_of_check_true hc2]] at hr
    -- the appended row is the submitted one; the old ones satisfy the invariant
      simp only [findOrCreateMovie_reviews, List.mem_append, List.mem_singleton] at hr
      rcases hr with hr | hr
      · exact hinv r hr w hw
      · subst hr
        simp only at hw
        subst hw
        simp only [ratingCheck, Bool.and_eq_true, decide_eq_true_eq] at hc2
        exact hc2

/-- Closed witness: a concrete out-of-range rating (11) is rejected and the
store's reviews stay empty. -/
theorem review_rating_range_amended_witness :
    (reviewsAddHandler dbAlice 1 "Tenet" (some 11) (some "bad")).reviews = dbAlice.reviews ∧
    ∀ (rating : Option Int) (text2 : Option String),
      (∀ r ∈ dbAlice.reviews, ∀ w : Int, r.rating = some w → 1 ≤ w ∧ w ≤ 10) →
      ∀ r ∈ (reviewsAddHandler dbAlice 1 "Tenet" rating text2).reviews,
        ∀ w : Int, r.rating = some w → 1 ≤ w ∧ w ≤ 10 :=
  review_rating_range_amended dbAlice 1 "Tenet" 11 (some "bad") (by decide)

/-- C8: the discovery handler always renders a page, never a 5xx: a falsy API
key yields the empty not-configured page, and a transport error in the search
branch yields the empty try-again-later page. -/
theorem discover_never_hard_fails (apiKey searchQuery : Option String)
    (searchResult : CatalogResult OmdbSearchResponse)
    (popular : List DisplayMovie) (top10 : List Top10Movie) :
    (∃ view, discoverHandler apiKey searchQuery searchResult popular top10 =
        .renderPage view) ∧
    (strTruthy apiKey = false →
      discoverHandler apiKey searchQuery searchResult popular top10 =
        .renderPage ⟨[], [], [], some "OMDB API key not configured.", false⟩) ∧
    (strTruthy apiKey = true → strTruthy searchQuery = true →
      discoverHandler apiKey searchQuery (.transportError) popular top10 =
        .renderPage ⟨[], [], [], some "Error loading movies. Try again later.", false⟩) := by
  refine ⟨?_, ?_, ?_⟩
  · rcases hk : strTruthy apiKey with _ | _
    · exact ⟨⟨[], [], [], some "OMDB API key not configured.", false⟩,
        by simp [discoverHandler, hk]⟩
    · rcases hq : strTruthy searchQuery with _ | _
      · exact ⟨⟨[], popular, top10, none, false⟩, by simp [discoverHandler, hk, hq]⟩
      · rcases searchResult with resp | _
        · rcases hr : resp.responseFalse with _ | _
          · exact ⟨⟨resp.Search.map displayOf, [], [], none, true⟩,
              by simp [discoverHandler, hk, hq, hr]⟩
          · exact ⟨⟨[], [], [], some "No movies found for your search.", true⟩,
              by simp [discoverHandler, hk, hq, hr]⟩
        · exact ⟨⟨[], [], [], some "Error loading movies. Try again later.", false⟩,
            by simp [discoverHandler, hk, hq]⟩
  · intro hk
    simp [discoverHandler, hk]
  · intro hk hq
    simp [discoverHandler, hk, hq]

/-- Closed witness for the discovery contract at concrete inputs: a missing
key and a transport error under a present key both render. -/
theorem discover_never_hard_fails_witness :
    (∃ view, discoverHandler none none (.transportError) [] [] = .renderPage view) ∧
    discoverHandler none none (.transportError) [] [] =
      .renderPage ⟨[], [], [], some "OMDB API key not configured.", false⟩ ∧
    discoverHandler (some "key") (some "dune") (.transportError) [] [] =
      .renderPage ⟨[], [], [], some "Error loading movies. Try again later.", false⟩ :=
  ⟨(discover_never_hard_fails none none .transportError [] []).1,
   (discover_never_hard_fails none none .transportError [] []).2.1 (by decide),
   (discover_never_hard_fails (some "key") (some "dune") .transportError [] []).2.2
     (by decide) (by decide)⟩

/-- C9: a review-retrieval request carrying a title never errors: with no
movie of that title the result is the empty list rendered with the
explanatory message, and with the movie present the rendered tuples are
exactly the inner join of its reviews with the users table. -/
theorem reviews_get_contract (db : DBState) (title : String) (hT : title ≠ "")
    (huid : db.users.Pairwise (fun a b => a.user_id ≠ b.user_id)) :
    (db.movies.find? (fun m => m.title == title) = none →
      reviewsGetHandler db title =
        .page title [] (some "No reviews yet — be the first to add one!")) ∧
    (∀ m, db.movies.find? (fun x => x.title == title) = some m →
      ∃ revs msg, reviewsGetHandler db title = .page title revs msg ∧
        ∀ d : ReviewDisplay, d ∈ revs ↔
          ∃ r ∈ db.reviews, r.movie_id = m.movie_id ∧ r.rating = d.rating ∧
            r.review_text = d.review_text ∧
            ∃ u ∈ db.users, u.user_id = r.user_id ∧ u.username = d.username) := by
  constructor
  · intro hfind
    unfold reviewsGetHandler
    rw [if_neg hT, hfind]
    rfl
  · intro m hfind
    refine ⟨reviewsJoin db m.movie_id,
      (if (reviewsJoin db m.movie_id).length = 0
        then some "No reviews yet — be the first to add one!" else none), ?_, ?_⟩
    · unfold reviewsGetHandler
      rw [if_neg hT, hfind]
    · intro d
      constructor
      · intro hd
        unfold reviewsJoin at hd
        simp only [List.mem_filterMap, List.mem_filter, Option.map_eq_some'] at hd
        obtain ⟨r, ⟨hr, hmid⟩, u, hu, hdu⟩ := hd
        refine ⟨r, hr, by simpa using hmid, ?_, ?_,
          u, List.mem_of_find?_eq_some hu, ?_, ?_⟩
        · rw [← hdu]
        · rw [← hdu]
        · have := List.find?_some hu
          simpa using this
        · rw [← hdu]
      · intro hd
        obtain ⟨r, hr, hmid, hrat, htext, u, hu, huid2, huname⟩ := hd
        unfold reviewsJoin
        simp only [List.mem_filterMap, List.mem_filter]
        refine ⟨r, ⟨hr, by simpa using hmid⟩, ?_⟩
        have hfu : db.users.find? (fun u2 => u2.user_id == r.user_id) = some u :=
          find?_key_unique (fun u2 => u2.user_id) huid hu huid2
        rw [hfu]
        simp only [Option.map_eq_some']
        refine ⟨u, rfl, ?_⟩
        cases d
        simp only [ReviewDisplay.mk.injEq]
        exact ⟨hrat, htext, huname⟩

/-- Closed witness: retrieving reviews of an absent title on a concrete store
renders the empty list with the explanatory message. -/
theorem reviews_get_contract_witness :
    reviewsGetHandler dbAlice "Tenet" =
      .page "Tenet" [] (some "No reviews yet — be the first to add one!") :=
  (reviews_get_contract dbAlice "Tenet" (by decide) (by decide)).1 rfl

/-- The ORDER BY AVG DESC comparison is a trichotomy on average values. -/
theorem avgDescBefore_trichotomy (x y : Option ℚ) :
    avgDescBefore x y ∨ x = y ∨ avgDescBefore y x := by
  rcases x with _ | a <;> rcases y with _ | b
  · exact Or.inr (Or.inl rfl)
  · exact Or.inl trivial
  · exact Or.inr (Or.inr trivial)
  · rcases lt_trichotomy a b with h | h | h
    · exact Or.inr (Or.inr h)
    · exact Or.inr (Or.inl (by rw [h]))
    · exact Or.inl h

/-- The ORDER BY AVG DESC comparison is transitive. -/
theorem avgDescBefore_trans :
    ∀ {x y z : Option ℚ}, avgDescBefore x y → avgDescBefore y z → avgDescBefore x z
  | none, some _, some _, _, _ => trivial
  | some _, some _, some _, h1, h2 => lt_trans h2 h1
  | none, none, _, h1, _ => False.elim h1
  | some _, none, _, h1, _ => False.elim h1
  | none, some _, none, _, h2 => False.elim h2
  | some _, some _, none, _, h2 => False.elim h2

/-- Totality of the full ORDER BY comparison. -/
theorem topOrder_total (a b : TopMovieRow) : topOrder a b ∨ topOrder b a := by
  unfold topOrder
  rcases avgDescBefore_trichotomy a.avg_rating b.avg_rating with h | h | h
  · exact Or.inl (Or.inl h)
  · rcases Nat.lt_trichotomy a.review_count b.review_count with hc | hc | hc
    · exact Or.inr (Or.inr ⟨h.symm, Or.inl hc⟩)
    · rcases le_total a.title b.title with ht | ht
      · exact Or.inl (Or.inr ⟨h, Or.inr ⟨hc, ht⟩⟩)
      · exact Or.inr (Or.inr ⟨h.symm, Or.inr ⟨hc.symm, ht⟩⟩)
    · exact Or.inl (Or.inr ⟨h, Or.inl hc⟩)
  · exact Or.inr (Or.inl h)

/-- Transitivity of the full ORDER BY comparison. -/
theorem topOrder_trans {a b c : TopMovieRow} (h1 : topOrder a b) (h2 : topOrder b c) :
    topOrder a c := by
  unfold topOrder at h1 h2 ⊢
  rcases h1 with h1 | ⟨he1, h1⟩
  · rcases h2 with h2 | ⟨he2, h2⟩
    · exact Or.inl (avgDescBefore_trans h1 h2)
    · refine Or.inl ?_
      rw [← he2]
      exact h1
  · rcases h2 with h2 | ⟨he2, h2⟩
    · refine Or.inl ?_
      rw [he1]
      exact h2
    · refine Or.inr ⟨he1.trans he2, ?_⟩
      rcases h1 with h1 | ⟨hc1, ht1⟩
      · rcases h2 with h2 | ⟨hc2, ht2⟩
        · exact Or.inl (by omega)
        · exact Or.inl (by omega)
      · rcases h2 with h2 | ⟨hc2, ht2⟩
        · exact Or.inl (by omega)
        · exact Or.inr ⟨by omega, le_trans ht1 ht2⟩

/-- A distinct GROUP BY key comes from the joined rows. -/
theorem mem_distinctMovies : ∀ (l : List MovieRow) (x : MovieRow),
    x ∈ distinctMovies l → x ∈ l
  | [], _, h => by
    rw [distinctMovies] at h
    exact h
  | m :: rest, x, h => by
    rw [distinctMovies] at h
    rcases List.mem_cons.mp h with rfl | h2
    · exact List.mem_cons_self _ _
    · have hx := mem_distinctMovies
        (rest.filter (fun m2 => !(m2.movie_id == m.movie_id))) x h2
      exact List.mem_cons_of_mem _ (List.mem_filter.mp hx).1
termination_by l => l.length
decreasing_by
  simp only [List.length_cons]
  exact Nat.lt_succ_of_le (List.length_filter_le _ _)

/-- C7: the profile's best-movies list holds at most 10 entries, is sorted by
average rating descending with ties broken by review count descending then by
title ascending (the topOrder relation), and every entry comes from a movie
the user has reviewed. -/
theorem profile_top_movies (db : DBState) (uid : Nat) :
    (topMoviesQuery db uid).length ≤ 10 ∧
    List.Sorted topOrder (topMoviesQuery db uid) ∧
    ∀ e ∈ topMoviesQuery db uid, ∃ m ∈ db.movies, m.title = e.title ∧
      ∃ r ∈ db.reviews, r.user_id = uid ∧ r.movie_id = m.movie_id := by
  haveI htot : IsTotal TopMovieRow topOrder := ⟨topOrder_total⟩
  haveI htrans : IsTrans TopMovieRow topOrder := ⟨fun _ _ _ => topOrder_trans⟩
  refine ⟨?_, ?_, ?_⟩
  · exact List.length_take_le 10 _
  · exact List.Pairwise.sublist (List.take_sublist 10 _)
      (List.sorted_insertionSort topOrder _)
  · intro e he
    unfold topMoviesQuery at he
    have h1 : e ∈ ((distinctMovies ((userReviewRows db uid).map Prod.fst)).map
        (topMovieRowOf (userReviewRows db uid))) :=
      (List.mem_insertionSort topOrder).mp ((List.take_sublist 10 _).subset he)
    simp only [List.mem_map] at h1
    obtain ⟨m, hm, rfl⟩ := h1
    have hm2 : m ∈ (userReviewRows db uid).map Prod.fst := mem_distinctMovies _ _ hm
    simp only [List.mem_map] at hm2
    obtain ⟨p, hp, rfl⟩ := hm2
    unfold userReviewRows at hp
    simp only [List.mem_filterMap, List.mem_filter, Option.map_eq_some'] at hp
    obtain ⟨r, ⟨hr, hru⟩, mm, hfmm, hpe⟩ := hp
    subst hpe
    refine ⟨mm, List.mem_of_find?_eq_some hfmm, rfl, r, hr, ?_, ?_⟩
    · simpa using hru
    · have h2 : mm.movie_id = r.movie_id := by simpa using List.find?_some hfmm
      exact h2.symm

/-- Closed witness: the top-movies view of a concrete store satisfies the
three properties. -/
theorem profile_top_movies_witness :
    (topMoviesQuery dbDune 1).length ≤ 10 ∧
    List.Sorted topOrder (topMoviesQuery dbDune 1) ∧
    ∀ e ∈ topMoviesQuery dbDune 1, ∃ m ∈ dbDune.movies, m.title = e.title ∧
      ∃ r ∈ dbDune.reviews, r.user_id = 1 ∧ r.movie_id = m.movie_id :=
  profile_top_movies dbDune 1

/-- Closed witness: a concrete successful login whose session snapshot is the
whole stored row, hash included. -/
theorem login_session_stores_entire_row_witness :
    ∃ row ∈ dbAlice.users, row.username = "alice" ∧
      (fun _ _ => true : String → String → Bool) "pw" row.password = true ∧
      (loginHandler (fun _ _ => true) dbAlice none ⟨"alice", "pw"⟩).2 = some row :=
  login_session_stores_entire_row (fun _ _ => true) dbAlice none ⟨"alice", "pw"⟩
    ⟨"Login successful", "alice", rfl⟩

end MovieApp
